import Mathlib

/-!
Verification of the build-goal pack (atomist/sdm-pack-build) against its
natural-language specification.

The development shallowly embeds the relevant source functions:

* `buildStatusToSdmGoalState`, `executeCheckBuild`, `setBuildContext`
  from `src/lib/support/build/executeCheckBuild.ts`;
* `Build.handleBuildCompleteEvent` from `src/lib/Build.ts`;
* `obtainBuildIdentifier`, `createBuildTag`, `onExit`, `executeBuild`
  from `src/lib/support/build/executeBuild.ts`;
* `spawnBuilder` and its command loop from
  `src/lib/support/build/spawnBuilder.ts`.

External collaborators (GraphQL query results, the process-spawn
primitive, goal persistence) are passed in as explicit values, so every
function here is executable.
-/

namespace SdmPackBuild

/-- Goal states a build fulfillment can report.  The source enum
`SdmGoalState` is larger; the build pack only ever produces these
three members. -/
inductive SdmGoalState
  | in_process
  | success
  | failure
deriving DecidableEq, Repr

/-- Raw build status as it arrives over the wire.  The TypeScript switch
compares the runtime string; an absent (`null`/`undefined`) status is
modelled as `none` and falls through to the `default` branch exactly as
in JavaScript. -/
abbrev RawBuildStatus := Option String

/-- Embedding of `buildStatusToSdmGoalState`
(`src/lib/support/build/executeCheckBuild.ts`, lines 70-81): `passed`
maps to success, `broken`/`failed`/`canceled` map to failure, every
other (or absent) status maps to `in_process`. -/
def buildStatusToSdmGoalState (buildStatus : RawBuildStatus) : SdmGoalState :=
  match buildStatus with
  | some "passed" => SdmGoalState.success
  | some "broken" => SdmGoalState.failure
  | some "failed" => SdmGoalState.failure
  | some "canceled" => SdmGoalState.failure
  | _ => SdmGoalState.in_process

/-- The status table exactly as the spec states it (section 4.2):
`passed` to success; `broken`, `failed`, `canceled` to failure;
anything else to `in_process`.  Written from the spec's words, to be
compared with the source embedding. -/
def specStatusTable (s : RawBuildStatus) : SdmGoalState :=
  if s = some "passed" then SdmGoalState.success
  else if s = some "broken" ∨ s = some "failed" ∨ s = some "canceled" then
    SdmGoalState.failure
  else SdmGoalState.in_process

/-- An external URL attached to a goal result (`{label, url}`). -/
structure ExternalUrl where
  label : String
  url : String
deriving DecidableEq, Repr

/-- One record of the `BuildForCommit` query result used by
`executeCheckBuild`.  Only the fields the function reads are kept. -/
structure BuildRecord where
  name : String
  provider : String
  status : RawBuildStatus
  buildUrl : String
deriving DecidableEq, Repr

/-- Result returned by a goal executor to the orchestration engine.
`externalUrls = none` models the field being absent from the returned
object. -/
structure GoalExecutionResult where
  state : SdmGoalState
  externalUrls : Option (List ExternalUrl)
deriving DecidableEq, Repr

/-- Embedding of `executeCheckBuild`
(`src/lib/support/build/executeCheckBuild.ts`, lines 23-54).  The
GraphQL lookup is passed in as its result: `none` models a response
whose `Build` field is null or missing, `some builds` the returned
array.  The source guard is `!!builds && !!builds.Build &&
builds.Build.length > 0`, then it reads `builds.Build[0]`. -/
def executeCheckBuild (queryResult : Option (List BuildRecord)) : GoalExecutionResult :=
  match queryResult with
  | some (build :: _) =>
    { state := buildStatusToSdmGoalState build.status
      externalUrls := some [{ label := "Build Log", url := build.buildUrl }] }
  | _ => { state := SdmGoalState.in_process, externalUrls := none }

/-- A build-completion notification as consumed by
`Build.handleBuildCompleteEvent` (`event.data.Build[0]`).  Only the
fields the handler reads are kept; the commit identity is resolved by
an external collaborator and is reflected in which goal instance (if
any) the lookup below returns. -/
structure BuildEvent where
  status : RawBuildStatus
  buildUrl : String
  provider : String
deriving DecidableEq, Repr

/-- A pending goal instance as seen by the correlator.  `state` is the
goal's currently persisted state; `fulfillmentMethod` is the registered
fulfillment method string (`"sdm"` for goals run by the direct
orchestrator, `"side-effect"` and `"other"` for externally fulfilled
goals).  The current handler reads neither field. -/
structure SdmGoal where
  state : SdmGoalState
  fulfillmentMethod : String
deriving DecidableEq, Repr

/-- The patch `setBuildContext` passes to `updateGoal`
(`src/lib/support/build/executeCheckBuild.ts`, lines 56-68).  The
`description` field of the source patch is computed by the external sdm
helper `descriptionFromState` from the goal template and `state` alone,
so it carries no extra information and is omitted here. -/
structure GoalUpdate where
  state : SdmGoalState
  externalUrls : List ExternalUrl
deriving DecidableEq, Repr

/-- Embedding of `setBuildContext`: map the raw status through the
table and attach a single `Build Log` external URL. -/
def setBuildContext (status : RawBuildStatus) (url : String) : GoalUpdate :=
  { state := buildStatusToSdmGoalState status
    externalUrls := [{ label := "Build Log", url := url }] }

/-- Observable actions the build-completion handler performs, in
order: invoking a registered build listener, and updating the matched
goal instance through `setBuildContext`/`updateGoal`. -/
inductive HandlerAction
  | invokeListener (idx : Nat)
  | updateGoal (target : SdmGoal) (patch : GoalUpdate)
deriving DecidableEq, Repr

/-- Result value an event handler returns to the automation client. -/
inductive HandlerResult
  | success
deriving DecidableEq, Repr

/-- Embedding of `Build.handleBuildCompleteEvent` (`src/lib/Build.ts`,
lines 112-148).  `listeners` are the registered build listeners
(identified by index), `sdmGoal` is the result of the
`findSdmGoalOnCommit` lookup on the notification's commit.  The source
first invokes every listener, then returns `Success` if no goal
matched, and otherwise calls `setBuildContext` and returns `Success`.
The source's fulfillment/provider guard is commented out (lines
140-143), so the update happens for every matched goal. -/
def handleBuildCompleteEvent (listeners : List Nat) (build : BuildEvent)
    (sdmGoal : Option SdmGoal) : List HandlerAction × HandlerResult :=
  let listenerActions := listeners.map HandlerAction.invokeListener
  match sdmGoal with
  | none => (listenerActions, HandlerResult.success)
  | some g =>
    (listenerActions ++
        [HandlerAction.updateGoal g (setBuildContext build.status build.buildUrl)],
      HandlerResult.success)

/-- Does a handler trace contain a goal update? -/
def tracksGoalUpdate : HandlerAction → Bool
  | HandlerAction.updateGoal _ _ => true
  | _ => false

/-- A concrete notification used to exercise the correlator. -/
def sampleBuildEvent : BuildEvent :=
  { status := some "passed", buildUrl := "http://x/log", provider := "travis" }

/-- A concrete pending goal instance whose registered fulfillment
method is direct (`"sdm"`), currently `in_process`. -/
def sampleDirectGoal : SdmGoal :=
  { state := SdmGoalState.in_process, fulfillmentMethod := "sdm" }

/-! ### Decimal strings and the build identifier allocator

The allocator (`obtainBuildIdentifier`,
`src/lib/support/build/executeBuild.ts`, lines 116-148) works on the
string form of the identifier: it parses the stored string with
JavaScript numeric coercion (`+s`), adds one, and prints the result
back with `Number.prototype.toString`.  The functions below model that
parse/print pair for the strings that can reach the allocator:
non-negative decimal numerals (printed decimal numerals and the
implicit start value `"0"`); a non-numeral string coerces to NaN and
would print as `"NaN"`, as in JavaScript. -/

/-- The character for a single decimal digit (`'*'` for an
out-of-range argument, which never occurs for digits of a numeral). -/
def digitChar : Nat → Char
  | 0 => '0'
  | 1 => '1'
  | 2 => '2'
  | 3 => '3'
  | 4 => '4'
  | 5 => '5'
  | 6 => '6'
  | 7 => '7'
  | 8 => '8'
  | 9 => '9'
  | _ => '*'

/-- The numeric value of a decimal digit character. -/
def charDigit (c : Char) : Nat := c.toNat - 48

/-- Value of a most-significant-first digit list. -/
def digitsVal (ds : List Nat) : Nat := ds.foldl (fun a d => a * 10 + d) 0

/-- Most-significant-first decimal digits of `n`, with explicit fuel so
the definition is structural (the fuel `n + 1` always suffices). -/
def natToDigitsAux : Nat → Nat → List Nat
  | 0, _ => []
  | fuel + 1, n => if n < 10 then [n] else natToDigitsAux fuel (n / 10) ++ [n % 10]

/-- Most-significant-first decimal digits of `n`. -/
def natDecimalDigits (n : Nat) : List Nat := natToDigitsAux (n + 1) n

/-- The decimal numeral of `n`, modelling JavaScript
`Number.prototype.toString` on a non-negative integer. -/
def natToDecimalString (n : Nat) : String :=
  ((natDecimalDigits n).map digitChar).asString

/-- JavaScript numeric coercion `+s` restricted to the strings the
allocator can see: the empty string coerces to `0`, a string of
decimal digits to its value, anything else to NaN (`none`). -/
def jsParseNat (s : String) : Option Nat :=
  if s.data.isEmpty then some 0
  else if s.data.all Char.isDigit then some (digitsVal (s.data.map charDigit))
  else none

/-- The allocator's core arithmetic,
`(+buildIdentifier.identifier + 1).toString()`: coerce the stored
string to a number, add one, print the result. -/
def bumpIdentifierString (s : String) : String :=
  match jsParseNat s with
  | some n => natToDecimalString (n + 1)
  | none => "NaN"

/-- Repository identity used to scope build identifiers. -/
structure BIRepoRef where
  owner : String
  name : String
  providerId : String
deriving DecidableEq, Repr

/-- A persisted `SdmBuildIdentifier` record. -/
structure SdmBuildIdentifier where
  identifier : String
  repo : BIRepoRef
deriving DecidableEq, Repr

/-- Embedding of `obtainBuildIdentifier`
(`src/lib/support/build/executeBuild.ts`, lines 116-148).  The GraphQL
query is passed in as its result list (a null `SdmBuildIdentifier`
field behaves like the empty list: both fail the `length === 1`
guard).  The returned record is the bumped identifier that the source
both persists (as an `SdmBuildIdentifier` domain event) and returns in
string form (`bumpedBuildIdentifier.identifier`). -/
def obtainBuildIdentifier (queryResult : List SdmBuildIdentifier)
    (repo : BIRepoRef) : SdmBuildIdentifier :=
  let buildIdentifier : SdmBuildIdentifier :=
    match queryResult with
    | [bi] => bi
    | _ => { identifier := "0", repo := repo }
  { buildIdentifier with
    identifier := bumpIdentifierString buildIdentifier.identifier }

/-- The query result visible to a sequential caller: the most recently
persisted record for the repository, if any. -/
def queryOf : Option SdmBuildIdentifier → List SdmBuildIdentifier
  | none => []
  | some bi => [bi]

/-- `n` sequential (non-concurrent) allocator calls for one repository,
starting from no persisted record: each call queries the record
persisted by the previous call, and the returned identifier strings are
collected in order. -/
def allocRun (repo : BIRepoRef) : Nat → Option SdmBuildIdentifier × List String
  | 0 => (none, [])
  | n + 1 =>
    let p := allocRun repo n
    let bumped := obtainBuildIdentifier (queryOf p.1) repo
    (some bumped, p.2 ++ [bumped.identifier])

/-! ### Tag creation and the direct build orchestrator -/

/-- Embedding of `createBuildTag`
(`src/lib/support/build/executeBuild.ts`, lines 150-172), returning the
name of the tag created, or `none` when no tag is created.  `tagConfig`
is the `sdm.build.tag` configuration value (default `true`),
`localMode` is `isInLocalMode()`, and `version` is the result of the
`readSdmVersion` collaborator lookup (`none` when no previously
computed version exists, in which case tagging is skipped).  The
source's tag message is the constant `"Tag created by SDM"`. -/
def createBuildTag (tagConfig : Bool) (localMode : Bool)
    (version : Option String) (buildNo : String) : Option String :=
  if tagConfig && !localMode then
    match version with
    | some v => some (v ++ "+sdm." ++ buildNo)
    | none => none
  else none

/-- Result of one spawned build as `executeBuild` consumes it
(`rb.buildResult`): the `error` and `message` fields of a
`SpawnLogResult`. -/
structure SpawnResult where
  error : Option String
  message : Option String
deriving DecidableEq, Repr

/-- Outcomes of the collaborator calls made after the command sequence
finished: the `passed`/`failed` webhook posts and the tag creation.
`Except.error` models the call throwing. -/
structure ExitEnv where
  updatePassed : Except String Unit
  updateFailed : Except String Unit
  createTag : Except String Unit
deriving Repr

/-- Embedding of `onExit` (`src/lib/support/build/executeBuild.ts`,
lines 99-114): on success, post the `passed` status and create the
build tag; on failure, post the `failed` status.  The whole body is
wrapped in `try/catch`, so `onExit` never propagates an error; the
returned value is the error that was caught and logged as a warning,
if any. -/
def onExit (env : ExitEnv) (success : Bool) : Option String :=
  if success then
    match env.updatePassed with
    | Except.error e => some e
    | Except.ok _ =>
      match env.createTag with
      | Except.error e => some e
      | Except.ok _ => none
  else
    match env.updateFailed with
    | Except.error e => some e
    | Except.ok _ => none

/-- The value `executeBuild` returns to the orchestration engine:
`Success`, `{ code: 1, message }` for a failed command sequence, or
`failure(err)` for an exception on the build path. -/
inductive ExecResult
  | success
  | codeOne (message : Option String)
  | failureResult (err : String)
deriving DecidableEq, Repr

/-- Embedding of the body of `executeBuild`
(`src/lib/support/build/executeBuild.ts`, lines 65-97) after the build
number is obtained.  `updateStarted` is the outcome of posting the
`started` status, `builderOutcome` the builder invocation (throwing or
returning a `BuildInProgress` whose `buildResult` is a `SpawnResult`).
If the start or the builder throws, the outer catch posts `failed` and
returns `failure(err)`.  Otherwise `onExit` runs (it never throws) and
the function returns `{ code: 1 }` when the result carries an error
and `Success` otherwise.  The second component is the post-processing
error swallowed and logged inside `onExit`, if any. -/
def executeBuild (updateStarted : Except String Unit) (env : ExitEnv)
    (builderOutcome : Except String SpawnResult) : ExecResult × Option String :=
  match updateStarted with
  | Except.error e => (ExecResult.failureResult e, none)
  | Except.ok _ =>
    match builderOutcome with
    | Except.error e => (ExecResult.failureResult e, none)
    | Except.ok br =>
      (if br.error.isSome then ExecResult.codeOne br.message else ExecResult.success,
        onExit env br.error.isNone)

/-! ### The spawn builder -/

/-- One entry of the `commands` array passed to `spawnBuilder`
(`{command, args?, options?}`; the per-command spawn options are merged
into the call by the external `spawnLog` collaborator and are not
observable here). -/
structure BuildCommand where
  command : String
  args : List String
deriving DecidableEq, Repr

/-- The fields of `SpawnBuilderOptions` that the registration-time
guard in `spawnBuilder` reads (`src/lib/support/build/spawnBuilder.ts`,
lines 90-93); the remaining fields (error finder, log interpreter,
spawn options, project callbacks) never influence the guard. -/
structure SpawnBuilderOptions where
  commands : Option (List BuildCommand)
  commandFile : Option String
deriving DecidableEq, Repr

/-- JavaScript falsiness of an optional string: absent values and the
empty string are falsy; a supplied non-empty path is truthy. -/
def jsFalsyString : Option String → Bool
  | none => true
  | some s => s == ""

/-- Embedding of the registration-time guard of `spawnBuilder`: with
neither a (JS-truthy) `commands` array nor a (JS-truthy) `commandFile`
path the function throws synchronously, before returning the builder
closure; otherwise it returns the closure (`Except.ok`).  An array is
always JS-truthy, so only absence of `commands` counts. -/
def spawnBuilder (options : SpawnBuilderOptions) : Except String Unit :=
  if options.commands.isNone && jsFalsyString options.commandFile then
    Except.error "Please supply either commands or a path to a file in the project containing them"
  else Except.ok ()

/-- Embedding of the command loop inside the builder returned by
`spawnBuilder` (`src/lib/support/build/spawnBuilder.ts`, lines
128-141).  `run` is the external `spawnLog` collaborator (one call per
executed command); the accumulator `last` is the `buildResult` variable
carried across iterations.  Returns the list of commands actually
spawned, in order, and either the thrown `Build failure` error or the
final `buildResult` (which is `none` for an empty command list, the
source's `undefined`). -/
def runBuildCommandsAux (run : BuildCommand → SpawnResult) :
    List BuildCommand → Option SpawnResult →
      List BuildCommand × Except String (Option SpawnResult)
  | [], last => ([], Except.ok last)
  | c :: rest, _ =>
    let r := run c
    if r.error.isSome then
      ([c], Except.error ("Build failure: " ++ r.error.getD ""))
    else
      let p := runBuildCommandsAux run rest (some r)
      (c :: p.1, p.2)

/-- The command loop started with an undefined `buildResult`. -/
def runBuildCommands (run : BuildCommand → SpawnResult)
    (commands : List BuildCommand) :
    List BuildCommand × Except String (Option SpawnResult) :=
  runBuildCommandsAux run commands none

end SdmPackBuild

namespace SdmPackBuild

/-- Appending a digit multiplies the value by ten and adds the digit. -/
theorem digitsVal_append (ds : List Nat) (d : Nat) :
    digitsVal (ds ++ [d]) = digitsVal ds * 10 + d := by
  simp [digitsVal, List.foldl_append]

/-- With enough fuel, `natToDigitsAux` produces a non-empty list of
digits below ten whose value is the input. -/
theorem natToDigitsAux_spec (fuel : Nat) :
    ∀ n, n < fuel →
      digitsVal (natToDigitsAux fuel n) = n ∧
      natToDigitsAux fuel n ≠ [] ∧
      ∀ d ∈ natToDigitsAux fuel n, d < 10 := by
  induction fuel with
  | zero => intro n h; omega
  | succ f ih =>
    intro n h
    by_cases h10 : n < 10
    · refine ⟨?_, ?_, ?_⟩
      · simp [natToDigitsAux, h10, digitsVal]
      · simp [natToDigitsAux, h10]
      · intro d hd
        simp [natToDigitsAux, h10] at hd
        omega
    · have hdiv : n / 10 < f := by omega
      obtain ⟨ih1, ih2, ih3⟩ := ih (n / 10) hdiv
      refine ⟨?_, ?_, ?_⟩
      · rw [natToDigitsAux, if_neg h10, digitsVal_append, ih1]
        omega
      · rw [natToDigitsAux, if_neg h10]
        simp
      · intro d hd
        rw [natToDigitsAux, if_neg h10] at hd
        rcases List.mem_append.mp hd with hl | hr
        · exact ih3 d hl
        · simp at hr
          omega

/-- `natDecimalDigits` is correct: non-empty, digits below ten, value
equal to the input. -/
theorem natDecimalDigits_spec (n : Nat) :
    digitsVal (natDecimalDigits n) = n ∧
    natDecimalDigits n ≠ [] ∧
    ∀ d ∈ natDecimalDigits n, d < 10 :=
  natToDigitsAux_spec (n + 1) n (Nat.lt_succ_self n)

/-- A digit below ten prints as a digit character. -/
theorem digitChar_isDigit (d : Nat) (h : d < 10) : (digitChar d).isDigit = true := by
  interval_cases d <;> rfl

/-- Printing then reading a digit below ten is the identity. -/
theorem charDigit_digitChar (d : Nat) (h : d < 10) : charDigit (digitChar d) = d := by
  interval_cases d <;> rfl

/-- Round trip: JavaScript numeric coercion of the decimal numeral of
`n` yields `n` back. -/
theorem jsParseNat_natToDecimalString (n : Nat) :
    jsParseNat (natToDecimalString n) = some n := by
  obtain ⟨hval, hne, hdig⟩ := natDecimalDigits_spec n
  have hdata : (natToDecimalString n).data = (natDecimalDigits n).map digitChar := rfl
  have hnotempty : (natToDecimalString n).data.isEmpty = false := by
    rw [hdata]
    rcases hd : natDecimalDigits n with _ | ⟨a, t⟩
    · exact absurd hd hne
    · simp
  have hall : (natToDecimalString n).data.all Char.isDigit = true := by
    rw [hdata, List.all_eq_true]
    intro c hc
    rcases List.mem_map.mp hc with ⟨d, hd, rfl⟩
    exact digitChar_isDigit d (hdig d hd)
  rw [jsParseNat, hnotempty, if_neg (by simp), hall, if_pos rfl, hdata,
    List.map_map]
  have hmap : (natDecimalDigits n).map (charDigit ∘ digitChar) =
      (natDecimalDigits n).map id := by
    apply List.map_congr_left
    intro d hd
    exact charDigit_digitChar d (hdig d hd)
  rw [hmap, List.map_id, hval]

/-- Bumping the decimal numeral of `k` yields the decimal numeral of
`k + 1`. -/
theorem bumpIdentifierString_decimal (k : Nat) :
    bumpIdentifierString (natToDecimalString k) = natToDecimalString (k + 1) := by
  rw [bumpIdentifierString, jsParseNat_natToDecimalString]

/-- The implicit start value `"0"` is the decimal numeral of zero. -/
theorem natToDecimalString_zero : natToDecimalString 0 = "0" := rfl

/-- An empty query result fails the `length === 1` guard, so the
allocator bumps the implicit start value `"0"`. -/
theorem obtainBuildIdentifier_nil (repo : BIRepoRef) :
    obtainBuildIdentifier [] repo =
      { identifier := bumpIdentifierString "0", repo := repo } := rfl

/-- A single-record query result is bumped in place. -/
theorem obtainBuildIdentifier_single (bi : SdmBuildIdentifier) (repo : BIRepoRef) :
    obtainBuildIdentifier [bi] repo =
      { identifier := bumpIdentifierString bi.identifier, repo := bi.repo } := rfl

/-- Closed form of `n` sequential allocator calls: the store holds the
numeral of `n` (none before the first call) and the returned strings
are the numerals of `1, …, n` in order. -/
theorem allocRun_closed (repo : BIRepoRef) (n : Nat) :
    allocRun repo n =
      ((if n = 0 then none
          else some { identifier := natToDecimalString n, repo := repo }),
        (List.range n).map (fun i => natToDecimalString (i + 1))) := by
  induction n with
  | zero => rfl
  | succ m ih =>
    rw [allocRun, ih]
    rcases Nat.eq_zero_or_pos m with hm | hm
    · subst hm
      rfl
    · rw [if_neg (by omega)]
      simp only [queryOf, obtainBuildIdentifier_single, bumpIdentifierString_decimal]
      rw [if_neg (by omega)]
      simp [List.range_succ]

/-- C3: sequential allocator calls for one repository return the
decimal numerals of `1, 2, …, n` in order — each returned string is the
decimal form of an integer strictly greater than every integer
previously returned, starting from `1` when no prior record exists. -/
theorem obtainBuildIdentifier_sequential_monotone (repo : BIRepoRef) (n : Nat) :
    (allocRun repo n).2 = (List.range n).map (fun i => natToDecimalString (i + 1)) ∧
    List.Pairwise (fun a b => a < b)
      (((allocRun repo n).2).map (fun s => (jsParseNat s).getD 0)) := by
  have hrun := allocRun_closed repo n
  have houts : (allocRun repo n).2 =
      (List.range n).map (fun i => natToDecimalString (i + 1)) := by
    rw [hrun]
  refine ⟨houts, ?_⟩
  rw [houts, List.map_map]
  have hfun : (List.range n).map
        ((fun s => (jsParseNat s).getD 0) ∘ fun i => natToDecimalString (i + 1)) =
      (List.range n).map (fun i => i + 1) := by
    apply List.map_congr_left
    intro i _
    simp [Function.comp, jsParseNat_natToDecimalString]
  rw [hfun]
  exact (List.pairwise_lt_range n).map _ (fun a b hab => by omega)

/-- C7: a query result with more than one persisted record does not
crash the allocator — it is treated exactly like "no record found": the
sequence restarts from the implicit value `"0"` and the call returns
`"1"`. -/
theorem obtainBuildIdentifier_multi_record (queryResult : List SdmBuildIdentifier)
    (repo : BIRepoRef) (h : 1 < queryResult.length) :
    obtainBuildIdentifier queryResult repo = { identifier := "1", repo := repo } := by
  rcases queryResult with _ | ⟨a, _ | ⟨b, t⟩⟩
  · simp at h
  · simp at h
  · rfl

/-- Witness for C7 at a concrete two-record query result. -/
theorem obtainBuildIdentifier_multi_record_witness :
    1 < ([{ identifier := "5", repo := { owner := "o", name := "n", providerId := "p" } },
          { identifier := "7", repo := { owner := "o", name := "n", providerId := "p" } }] :
        List SdmBuildIdentifier).length ∧
    obtainBuildIdentifier
        [{ identifier := "5", repo := { owner := "o", name := "n", providerId := "p" } },
         { identifier := "7", repo := { owner := "o", name := "n", providerId := "p" } }]
        { owner := "o", name := "n", providerId := "p" } =
      { identifier := "1", repo := { owner := "o", name := "n", providerId := "p" } } :=
  ⟨by decide, obtainBuildIdentifier_multi_record _ _ (by decide)⟩

/-- C1: the status-to-goal-state mapping agrees with the spec's table on
every raw status: `passed` yields success; `broken`, `failed`,
`canceled` yield failure; every other status — `started`, unknown
strings, or an absent status — yields `in_process`. -/
theorem buildStatusToSdmGoalState_matches_table (s : RawBuildStatus) :
    buildStatusToSdmGoalState s = specStatusTable s := by
  unfold buildStatusToSdmGoalState specStatusTable
  rcases s with _ | v
  · simp
  · by_cases h1 : v = "passed"
    · subst h1; simp
    · by_cases h2 : v = "broken"
      · subst h2; simp
      · by_cases h3 : v = "failed"
        · subst h3; simp
        · by_cases h4 : v = "canceled"
          · subst h4; simp
          · simp [h1, h2, h3, h4]

/-- C10: when no build record exists for the commit, `executeCheckBuild`
returns `in_process` with no external URLs; when a build record exists,
it returns the table-mapped state of the first record together with a
single `Build Log` external URL pointing at that build's URL. -/
theorem executeCheckBuild_correct :
    (executeCheckBuild none =
        { state := SdmGoalState.in_process, externalUrls := none } ∧
      executeCheckBuild (some []) =
        { state := SdmGoalState.in_process, externalUrls := none }) ∧
    ∀ (b : BuildRecord) (rest : List BuildRecord),
      executeCheckBuild (some (b :: rest)) =
        { state := buildStatusToSdmGoalState b.status
          externalUrls := some [{ label := "Build Log", url := b.buildUrl }] } := by
  refine ⟨⟨rfl, rfl⟩, ?_⟩
  intro b rest
  rfl

/-- C6: a notification whose commit matches no pending goal instance is
a no-op that returns success: the handler invokes every registered
build listener and performs no goal update. -/
theorem handleBuildCompleteEvent_no_goal_noop (listeners : List Nat) (build : BuildEvent) :
    handleBuildCompleteEvent listeners build none =
      (listeners.map HandlerAction.invokeListener, HandlerResult.success) := by
  rfl

/-- C2 counterexample: for a notification matching a pending goal whose
registered fulfillment method is direct (`"sdm"`), the handler does NOT
leave the goal state alone — it emits a `setBuildContext` update that
moves the goal from `in_process` to `success`, because the fulfillment
guard is commented out in the source.  This refutes the claim that the
handler returns success "without mutating the goal instance's state". -/
theorem handleBuildCompleteEvent_direct_mutates :
    sampleDirectGoal.fulfillmentMethod = "sdm" ∧
    (handleBuildCompleteEvent [] sampleBuildEvent (some sampleDirectGoal)).1 =
      [HandlerAction.updateGoal sampleDirectGoal
        { state := SdmGoalState.success
          externalUrls := [{ label := "Build Log", url := "http://x/log" }] }] ∧
    sampleDirectGoal.state ≠ SdmGoalState.success := by
  refine ⟨rfl, rfl, ?_⟩
  decide

/-- C2 (amended): for every build-completion notification whose commit
matches a pending goal instance whose registered fulfillment method is
direct (`"sdm"`), the handler still returns success, but it does update
the goal: after invoking all listeners it applies the status-mapped
`setBuildContext` patch to the matched goal, the direct-fulfillment
guard having been removed (commented out) from the source. -/
theorem handleBuildCompleteEvent_direct_updates (listeners : List Nat)
    (build : BuildEvent) (g : SdmGoal) (h : g.fulfillmentMethod = "sdm") :
    handleBuildCompleteEvent listeners build (some g) =
      (listeners.map HandlerAction.invokeListener ++
          [HandlerAction.updateGoal g (setBuildContext build.status build.buildUrl)],
        HandlerResult.success) := by
  rfl

/-- Witness for the amended C2 theorem at a concrete direct-fulfillment
goal and notification. -/
theorem handleBuildCompleteEvent_direct_updates_witness :
    sampleDirectGoal.fulfillmentMethod = "sdm" ∧
    handleBuildCompleteEvent [0, 1] sampleBuildEvent (some sampleDirectGoal) =
      ([HandlerAction.invokeListener 0, HandlerAction.invokeListener 1,
          HandlerAction.updateGoal sampleDirectGoal
            (setBuildContext sampleBuildEvent.status sampleBuildEvent.buildUrl)],
        HandlerResult.success) :=
  ⟨rfl, handleBuildCompleteEvent_direct_updates [0, 1] sampleBuildEvent sampleDirectGoal rfl⟩

/-- C4 counterexample: with tagging enabled, prior version `v1.2.3` and
build number `4`, the tag actually created is `v1.2.3+sdm.4` — not the
`v1.2.3+build.4` that the claim's `<version>+build.<sequence>` form
requires. -/
theorem createBuildTag_not_build_form :
    createBuildTag true false (some "v1.2.3") "4" = some "v1.2.3+sdm.4" ∧
    some "v1.2.3+sdm.4" ≠ some "v1.2.3+build.4" := by
  exact ⟨rfl, by decide⟩

/-- C4 (amended): for every successful direct build with tagging
enabled (and not in local mode) and a previously computed semantic
version for the commit, the tag created has exactly the form
`<version>+sdm.<sequence>`. -/
theorem createBuildTag_sdm_form (v buildNo : String) :
    createBuildTag true false (some v) buildNo = some (v ++ "+sdm." ++ buildNo) := by
  rfl

/-- C5: when the command sequence succeeds (`buildResult.error`
absent) and the build started normally, a throwing post-processing
step — tag creation or the `passed` status post inside the exit
handler — is caught and logged, and `executeBuild` still returns the
success result: the reported outcome is unchanged, and a throwing tag
creation shows up only as the swallowed, logged error. -/
theorem executeBuild_postprocessing_swallowed (env : ExitEnv) (br : SpawnResult)
    (e : String) (hbr : br.error = none) :
    (executeBuild (Except.ok ()) env (Except.ok br)).1 = ExecResult.success ∧
    (env.updatePassed = Except.ok () → env.createTag = Except.error e →
      (executeBuild (Except.ok ()) env (Except.ok br)).2 = some e) := by
  constructor
  · simp [executeBuild, hbr]
  · intro hpassed htag
    simp [executeBuild, hbr, onExit, hpassed, htag]

/-- Witness for C5: a concrete successful build whose tag creation
throws still reports success, with the tag error merely logged. -/
theorem executeBuild_postprocessing_swallowed_witness :
    ({ error := none, message := some "ok" } : SpawnResult).error = none ∧
    (executeBuild (Except.ok ())
          { updatePassed := Except.ok (), updateFailed := Except.ok (),
            createTag := Except.error "tag failed" }
          (Except.ok { error := none, message := some "ok" })).1 =
        ExecResult.success ∧
    (executeBuild (Except.ok ())
          { updatePassed := Except.ok (), updateFailed := Except.ok (),
            createTag := Except.error "tag failed" }
          (Except.ok { error := none, message := some "ok" })).2 =
        some "tag failed" := by
  have h := executeBuild_postprocessing_swallowed
    { updatePassed := Except.ok (), updateFailed := Except.ok (),
      createTag := Except.error "tag failed" }
    { error := none, message := some "ok" } "tag failed" rfl
  exact ⟨rfl, h.1, h.2 rfl rfl⟩

/-- The executed-command trace of the loop does not depend on the
carried `buildResult` accumulator: it is the error-free prefix of the
command list followed by the first erroring command, if any. -/
theorem runBuildCommandsAux_trace (run : BuildCommand → SpawnResult)
    (commands : List BuildCommand) :
    ∀ last, (runBuildCommandsAux run commands last).1 =
      commands.takeWhile (fun c => (run c).error.isNone) ++
        (commands.dropWhile (fun c => (run c).error.isNone)).take 1 := by
  induction commands with
  | nil => intro last; rfl
  | cons c rest ih =>
    intro last
    rcases h : (run c).error with _ | err
    · simp only [runBuildCommandsAux, h, Option.isSome_none, Bool.false_eq_true,
        if_false, List.takeWhile_cons, List.dropWhile_cons, Option.isNone_none,
        if_true]
      rw [ih (some (run c))]
      rfl
    · simp [runBuildCommandsAux, h, List.takeWhile_cons, List.dropWhile_cons]

/-- C8: the spawn builder executes the command list in order, one
process-spawn call per command, and stops at the first command whose
result carries an error: the spawned commands are exactly the
error-free prefix plus that first erroring command, so no later command
is ever executed. -/
theorem runBuildCommands_short_circuits (run : BuildCommand → SpawnResult)
    (commands : List BuildCommand) :
    (runBuildCommands run commands).1 =
      commands.takeWhile (fun c => (run c).error.isNone) ++
        (commands.dropWhile (fun c => (run c).error.isNone)).take 1 :=
  runBuildCommandsAux_trace run commands none

/-- C9: `spawnBuilder` throws synchronously, at registration time,
exactly when the options supply neither a commands array nor a
(non-empty) commandFile path; when at least one of the two is supplied
the guard passes and the builder closure is returned. -/
theorem spawnBuilder_requires_commands (options : SpawnBuilderOptions) :
    spawnBuilder options =
        Except.error
          "Please supply either commands or a path to a file in the project containing them" ↔
      options.commands = none ∧
        (options.commandFile = none ∨ options.commandFile = some "") := by
  rcases options with ⟨cmds, file⟩
  rcases cmds with _ | cl <;> rcases file with _ | s
  · simp [spawnBuilder, jsFalsyString]
  · by_cases hs : s = ""
    · subst hs; simp [spawnBuilder, jsFalsyString]
    · simp [spawnBuilder, jsFalsyString, hs]
  · simp [spawnBuilder, jsFalsyString]
  · simp [spawnBuilder, jsFalsyString]

end SdmPackBuild
